import Mathlib

/-!
Shallow embedding of the compensation-calculation engine of the
`fraud_scenario_mantra` repository (files `app/compensation_formulas.py`,
`app/compensation_calculator.py`, `app/compensation_rules.py`).

Python floats are modelled as exact rationals (`ℚ`); `round(x, n)` is
modelled as round-half-to-even on the exact rational value, which is the
decimal rounding CPython performs on the printed value of the float.
Python string-to-float conversion is modelled for finite decimal literals
(optional sign, digits, optional fractional part, optional exponent);
the special forms `inf`/`nan` and digit-group underscores are outside the
model, as no scenario field uses them.  Dates are modelled as proleptic
Gregorian year/month/day triples with Python's `date.toordinal` day
numbering, and `datetime.strptime(s, "%Y-%m-%d")` is modelled character by
character (four-digit year, one-or-two-digit month and day, calendar
validity).
-/

/-- ASCII decimal digit test, matching the digits accepted by the
`%Y-%m-%d` format and by float literals. -/
def isDigitC (c : Char) : Bool := '0' ≤ c && c ≤ '9'

/-- Numeric value of a digit character. -/
def digVal (c : Char) : ℕ := c.toNat - '0'.toNat

/-- Value of a digit string read in base 10. -/
def digitsToNat (cs : List Char) : ℕ := cs.foldl (fun a c => 10 * a + digVal c) 0

/-- All characters are digits. -/
def allDigits (cs : List Char) : Bool := cs.all isDigitC

/-- Characters stripped by Python's `str.strip()` (ASCII whitespace). -/
def isPySpace (c : Char) : Bool :=
  c = ' ' || c = '\t' || c = '\n' || c = '\r' || c = '\x0b' || c = '\x0c'

/-- Python `str.strip()`. -/
def pyStrip (cs : List Char) : List Char :=
  ((cs.dropWhile isPySpace).reverse.dropWhile isPySpace).reverse

/-- Python `str.lower()` on the ASCII range. -/
def pyLower (cs : List Char) : List Char := cs.map Char.toLower

/-- Python `str.replace(",", "")`. -/
def removeCommas (cs : List Char) : List Char := cs.filter (fun c => !(c == ','))

/-- Python truthiness fallback `s or default` for strings: `None` and the
empty string are falsy. -/
def pyOrStr (v : Option String) (d : String) : String :=
  match v with
  | none => d
  | some s => if s = "" then d else s

/-- Python truthiness fallback `x or default` for optional ints: `None`
and `0` are falsy. -/
def pyOrZ (v : Option ℤ) (d : ℤ) : ℤ :=
  match v with
  | none => d
  | some x => if x = 0 then d else x

/-- Python truthiness fallback `x or default` for optional floats: `None`
and `0.0` are falsy. -/
def pyOrQ (v : Option ℚ) (d : ℚ) : ℚ :=
  match v with
  | none => d
  | some x => if x = 0 then d else x

/-- Round-half-to-even to an integer, the rounding CPython's `round`
performs on the exact decimal value. -/
def roundHalfEven (q : ℚ) : ℤ :=
  let f := ⌊q⌋
  let r := q - f
  if r < 1/2 then f
  else if 1/2 < r then f + 1
  else if f % 2 = 0 then f else f + 1

/-- Python `round(x, 2)`. -/
def pyRound2 (q : ℚ) : ℚ := (roundHalfEven (q * 100) : ℚ) / 100

/-- Exponent suffix of a Python float literal: empty, or `e`/`E`, an
optional sign and a nonempty digit string. -/
def parseExpPart (cs : List Char) (mant : ℚ) : Option ℚ :=
  match cs with
  | [] => some mant
  | c :: rest =>
    if c = 'e' || c = 'E' then
      let sgn : ℤ := match rest with
        | '-' :: _ => -1
        | _ => 1
      let ds : List Char := match rest with
        | '+' :: r => r
        | '-' :: r => r
        | r => r
      if ds ≠ [] ∧ allDigits ds then
        some (mant * (10 : ℚ) ^ (sgn * (digitsToNat ds : ℤ)))
      else none
    else none

/-- Body of a Python float literal after the optional sign: digits with an
optional fractional part (at least one digit overall), then an optional
exponent. -/
def parseFloatBody (cs : List Char) : Option ℚ :=
  let ip := cs.takeWhile isDigitC
  let rest := cs.dropWhile isDigitC
  match rest with
  | '.' :: rest2 =>
    let fp := rest2.takeWhile isDigitC
    let rest3 := rest2.dropWhile isDigitC
    if ip.isEmpty && fp.isEmpty then none
    else parseExpPart rest3 ((digitsToNat ip : ℚ) + (digitsToNat fp : ℚ) / (10 : ℚ) ^ fp.length)
  | _ =>
    if ip.isEmpty then none
    else parseExpPart rest (digitsToNat ip : ℚ)

/-- Python `float(s)` on finite decimal literals. -/
def parseFloatLit (cs : List Char) : Option ℚ :=
  match cs with
  | '+' :: r => parseFloatBody r
  | '-' :: r => (parseFloatBody r).map (fun v => -v)
  | r => parseFloatBody r

/-- `_parse_float` from `compensation_formulas.py`: `None`, the empty
string and any casing of `"none"` are absent; otherwise commas are removed,
whitespace stripped, and the remainder parsed as a float (parse failure is
absence). -/
def py_parse_float (v : Option String) : Option ℚ :=
  match v with
  | none => none
  | some s =>
    if s = "" ∨ pyLower s.data = "none".data then none
    else parseFloatLit (pyStrip (removeCommas s.data))

/-- Truncation toward zero, Python's `int(float)`. -/
def truncQ (q : ℚ) : ℤ := if 0 ≤ q then ⌊q⌋ else ⌈q⌉

/-- `_parse_int` from `compensation_formulas.py`. -/
def py_parse_int (v : Option String) : Option ℤ := (py_parse_float v).map truncQ

/-- Calendar date as parsed from a `YYYY-MM-DD` string. -/
structure PDate where
  y : ℕ
  m : ℕ
  d : ℕ
deriving DecidableEq

/-- Gregorian leap-year test. -/
def isLeap (y : ℕ) : Bool := y % 4 == 0 && (y % 100 != 0 || y % 400 == 0)

/-- Length of month `m` in year `y`. -/
def daysInMonth (y m : ℕ) : ℕ :=
  if m = 2 then (if isLeap y then 29 else 28)
  else if m = 4 ∨ m = 6 ∨ m = 9 ∨ m = 11 then 30 else 31

/-- Days in year `y` strictly before month `m` (index 0 is a placeholder). -/
def daysBeforeMonth (y m : ℕ) : ℕ :=
  [0, 0, 31, 59, 90, 120, 151, 181, 212, 243, 273, 304, 334].getD m 0
    + (if 2 < m ∧ isLeap y then 1 else 0)

/-- Python `date.toordinal`: day number with 0001-01-01 as day 1; date
subtraction `(d2 - d1).days` is the difference of ordinals. -/
def toOrdinal (dt : PDate) : ℤ :=
  let y : ℤ := (dt.y : ℤ) - 1
  365 * y + y / 4 - y / 100 + y / 400 + (daysBeforeMonth dt.y dt.m : ℤ) + (dt.d : ℤ)

/-- Split a character list on `-` separators. -/
def splitDash : List Char → List (List Char)
  | [] => [[]]
  | '-' :: cs => [] :: splitDash cs
  | c :: cs =>
    match splitDash cs with
    | [] => [[c]]
    | p :: ps => (c :: p) :: ps

/-- `datetime.strptime(s, "%Y-%m-%d").date()`: exactly three dash-separated
digit groups — a four-digit year, a one-or-two-digit month in 1..12, a
one-or-two-digit day valid for that month — with year at least 1. -/
def strptimeYMD (cs : List Char) : Option PDate :=
  match splitDash cs with
  | [ys, ms, ds] =>
    if allDigits ys ∧ allDigits ms ∧ allDigits ds
        ∧ ys.length = 4 ∧ (ms.length = 1 ∨ ms.length = 2)
        ∧ (ds.length = 1 ∨ ds.length = 2) then
      let y := digitsToNat ys
      let m := digitsToNat ms
      let d := digitsToNat ds
      if 1 ≤ y ∧ 1 ≤ m ∧ m ≤ 12 ∧ 1 ≤ d ∧ d ≤ daysInMonth y m then
        some ⟨y, m, d⟩
      else none
    else none
  | _ => none

/-- `_parse_iso_date` from `compensation_formulas.py`: `None`, the empty
string and the literal string `"none"` are absent; a `strptime` failure is
also absence. -/
def py_parse_iso_date (v : Option String) : Option PDate :=
  match v with
  | none => none
  | some s => if s = "" ∨ s = "none" then none else strptimeYMD s.data

/-- Left-pad with zeros to width `w`. -/
def padZeros (s : String) (w : ℕ) : String :=
  String.mk (List.replicate (w - s.length) '0' ++ s.data)

/-- Python `date.isoformat()`. -/
def isoformat (dt : PDate) : String :=
  padZeros (toString dt.y) 4 ++ "-" ++ padZeros (toString dt.m) 2 ++ "-" ++ padZeros (toString dt.d) 2

/-- Raw LLM-extracted field mapping: string keys to string-or-absent
values (`CompensationContext.raw`). -/
def Ctx : Type := String → Option String

/-- `CompensationContext.amount`. -/
def ctxAmount (raw : Ctx) (k : String) : Option ℚ := py_parse_float (raw k)

/-- `CompensationContext.iso_date`. -/
def ctxDate (raw : Ctx) (k : String) : Option PDate := py_parse_iso_date (raw k)

/-- `CompensationContext.int_field`. -/
def ctxInt (raw : Ctx) (k : String) : Option ℤ := py_parse_int (raw k)

/-- `CompensationContext.float_field`. -/
def ctxFloat (raw : Ctx) (k : String) : Option ℚ := py_parse_float (raw k)

/-- `CompensationContext.scenario_type`: `(data.get("scenario_type") or
"").strip().lower()`. -/
def scenarioType (raw : Ctx) : String :=
  String.mk (pyLower (pyStrip (pyOrStr (raw "scenario_type") "").data))

/-- `calc_upi_compensation`: ₹100 per day of delay beyond the TAT
(default 1), absent when either date is absent. -/
def calc_upi_compensation (raw : Ctx) : Option ℤ :=
  let txn_date := ctxDate raw "transaction_date_iso"
  let resolved_date := ctxDate raw "resolved_date_iso"
  let tat_days := pyOrZ (ctxInt raw "tat_days") 1
  match txn_date, resolved_date with
  | some t, some r =>
    let total_delay := toOrdinal r - toOrdinal t
    some (max 0 (total_delay - tat_days) * 100)
  | _, _ => none

/-- `calc_atm_compensation`: same shape as UPI with default TAT 5. -/
def calc_atm_compensation (raw : Ctx) : Option ℤ :=
  let txn_date := ctxDate raw "transaction_date_iso"
  let resolved_date := ctxDate raw "resolved_date_iso"
  let tat_days := pyOrZ (ctxInt raw "tat_days") 5
  match txn_date, resolved_date with
  | some t, some r =>
    let total_delay := toOrdinal r - toOrdinal t
    some (max 0 (total_delay - tat_days) * 100)
  | _, _ => none

/-- `calc_neft_compensation`: repo + spread p.a. for the days of delay. -/
def calc_neft_compensation (raw : Ctx) (default_repo_rate : ℚ) (spread : ℚ) : Option ℚ :=
  let amount := ctxAmount raw "transaction_amount"
  let due_date := ctxDate raw "due_date_iso"
  let credit_date := ctxDate raw "credit_date_iso"
  let repo_rate := pyOrQ (ctxFloat raw "repo_rate") default_repo_rate
  match amount, due_date, credit_date with
  | some a, some dd, some cd =>
    let days_delayed := toOrdinal cd - toOrdinal dd
    if days_delayed ≤ 0 then some 0
    else some (pyRound2 (a * (repo_rate + spread) * (days_delayed : ℚ) / 365))
  | _, _, _ => none

/-- `calc_rtgs_compensation`: as NEFT, flooring the billed days at 1 once
there is any delay. -/
def calc_rtgs_compensation (raw : Ctx) (default_repo_rate : ℚ) (spread : ℚ) : Option ℚ :=
  let amount := ctxAmount raw "transaction_amount"
  let due_date := ctxDate raw "due_date_iso"
  let credit_date := ctxDate raw "credit_date_iso"
  let repo_rate := pyOrQ (ctxFloat raw "repo_rate") default_repo_rate
  match amount, due_date, credit_date with
  | some a, some dd, some cd =>
    let days_raw := toOrdinal cd - toOrdinal dd
    if days_raw ≤ 0 then some 0
    else
      let days_delayed := max 1 days_raw
      some (pyRound2 (a * (repo_rate + spread) * (days_delayed : ℚ) / 365))
  | _, _, _ => none

/-- `calc_cheque_delay_compensation`: amount × rate × days / 365, with no
defaults for the rate or the day count. -/
def calc_cheque_delay_compensation (raw : Ctx) : Option ℚ :=
  let amount := ctxAmount raw "transaction_amount"
  let days_delayed := ctxInt raw "delay_days"
  let rate := ctxFloat raw "interest_rate"
  match amount, days_delayed, rate with
  | some a, some dy, some r =>
    if dy ≤ 0 then some 0
    else some (pyRound2 (a * r * (dy : ℚ) / 365))
  | _, _, _ => none

/-- `calc_nach_credit_compensation`: ₹100 per day beyond the TAT
(default 1) between due date and credit date. -/
def calc_nach_credit_compensation (raw : Ctx) : Option ℤ :=
  let due_date := ctxDate raw "due_date_iso"
  let credit_date := ctxDate raw "credit_date_iso"
  let tat_days := pyOrZ (ctxInt raw "tat_days") 1
  match due_date, credit_date with
  | some dd, some cd =>
    let total_delay := toOrdinal cd - toOrdinal dd
    some (max 0 (total_delay - tat_days) * 100)
  | _, _ => none

/-- `calc_nach_mandate_compensation`: ₹100 per day beyond the TAT
(default 1) between revocation and resolution. -/
def calc_nach_mandate_compensation (raw : Ctx) : Option ℤ :=
  let revocation_date := ctxDate raw "revocation_effective_date_iso"
  let resolution_date := ctxDate raw "resolution_date_iso"
  let tat_days := pyOrZ (ctxInt raw "tat_days") 1
  match revocation_date, resolution_date with
  | some rv, some rs =>
    let total_delay := toOrdinal rs - toOrdinal rv
    some (max 0 (total_delay - tat_days) * 100)
  | _, _ => none

/-- `calc_unauth_zero_liability_interest`: interest on the fraud amount for
the days between debit and reversal, floored at zero days. -/
def calc_unauth_zero_liability_interest (raw : Ctx) (default_interest_rate : ℚ) : Option ℚ :=
  let amount := ctxAmount raw "fraud_amount"
  let debit_date := ctxDate raw "debit_date_iso"
  let reversal_date := ctxDate raw "reversal_date_iso"
  let rate := pyOrQ (ctxFloat raw "interest_rate") default_interest_rate
  match amount, debit_date, reversal_date with
  | some a, some db, some rv =>
    let days := max 0 (toOrdinal rv - toOrdinal db)
    some (pyRound2 (a * rate * (days : ℚ) / 365))
  | _, _, _ => none

/-- `ACCOUNT_CAPS` segment-to-cap table. -/
def ACCOUNT_CAPS (seg : String) : Option ℚ :=
  if seg = "bsbd" then some 5000
  else if seg = "sb_ppi" then some 10000
  else if seg = "current_cc" then some 25000
  else none

/-- Customer/bank split returned by the two liability calculators. -/
structure LiabilitySplit where
  customer_liability : ℚ
  bank_compensation : ℚ
deriving DecidableEq

/-- `calc_unauth_limited_liability`: customer bears half the fraud amount
up to the per-segment cap, the bank the remainder; both halves are rounded
to two decimals on return. -/
def calc_unauth_limited_liability (raw : Ctx) : Option LiabilitySplit :=
  let amount := ctxAmount raw "fraud_amount"
  let seg := String.mk (pyLower (pyStrip (pyOrStr (raw "account_segment") "").data))
  match amount, ACCOUNT_CAPS seg with
  | some a, some cap =>
    let customer_liability := min (1/2 * a) cap
    let bank_compensation := a - customer_liability
    some ⟨pyRound2 customer_liability, pyRound2 bank_compensation⟩
  | _, _ => none

/-- `calc_unauth_customer_negligence`: absent when both reported amounts
default to zero, otherwise the two amounts clamped at zero and rounded. -/
def calc_unauth_customer_negligence (raw : Ctx) : Option LiabilitySplit :=
  let before_amt := pyOrQ (ctxAmount raw "fraud_amount_before_report") 0
  let after_amt := pyOrQ (ctxAmount raw "fraud_amount_after_report") 0
  if before_amt = 0 ∧ after_amt = 0 then none
  else some ⟨pyRound2 (max 0 before_amt), pyRound2 (max 0 after_amt)⟩

/-- Result envelope assembled by `dispatch_compensation`. -/
structure DispatchResult where
  eligible : Bool
  amount : Option ℚ
  primary_amount : Option ℚ
  primary_date : Option String
  customer_liability : Option ℚ
  bank_compensation : Option ℚ
  explanation : String
deriving DecidableEq

/-- The all-absent result the dispatcher starts from. -/
def baseResult : DispatchResult :=
  { eligible := false, amount := none, primary_amount := none, primary_date := none,
    customer_liability := none, bank_compensation := none, explanation := "" }

/-- The ten scenario names the dispatcher recognises. -/
def recognisedScenarios : List String :=
  ["upi", "atm", "neft", "rtgs", "cheque", "nach_credit", "nach_mandate",
   "unauth_zero", "unauth_limited", "unauth_negligence"]

/-- Scalar-result branch of the dispatcher's `try` block: eligibility
needs both the calculator result and the primary amount field. -/
def scalarBranch (comp : Option ℚ) (amt : Option ℚ) (d : Option PDate) (tag : String) :
    DispatchResult × List String :=
  match comp, amt with
  | some c, some a =>
    ({ baseResult with
        eligible := true
        amount := some c
        primary_amount := some a
        primary_date := d.map isoformat }, [tag])
  | _, _ => (baseResult, [])

/-- Body of the `try` block of `dispatch_compensation`: the updated result
record together with the extra explanation entries appended inside the
block. -/
def dispatchBody (raw : Ctx) (default_repo_rate : ℚ) (default_sb_rate : ℚ) :
    DispatchResult × List String :=
  let scen := scenarioType raw
  if scen = "upi" then
    scalarBranch ((calc_upi_compensation raw).map (fun c => (c : ℚ)))
      (ctxAmount raw "transaction_amount") (ctxDate raw "transaction_date_iso") "calculator=upi"
  else if scen = "atm" then
    scalarBranch ((calc_atm_compensation raw).map (fun c => (c : ℚ)))
      (ctxAmount raw "transaction_amount") (ctxDate raw "transaction_date_iso") "calculator=atm"
  else if scen = "neft" then
    scalarBranch (calc_neft_compensation raw default_repo_rate (2/100))
      (ctxAmount raw "transaction_amount") (ctxDate raw "due_date_iso") "calculator=neft"
  else if scen = "rtgs" then
    scalarBranch (calc_rtgs_compensation raw default_repo_rate (2/100))
      (ctxAmount raw "transaction_amount") (ctxDate raw "due_date_iso") "calculator=rtgs"
  else if scen = "cheque" then
    scalarBranch (calc_cheque_delay_compensation raw)
      (ctxAmount raw "transaction_amount") (ctxDate raw "due_date_iso") "calculator=cheque_delay"
  else if scen = "nach_credit" then
    scalarBranch ((calc_nach_credit_compensation raw).map (fun c => (c : ℚ)))
      (ctxAmount raw "transaction_amount") (ctxDate raw "due_date_iso") "calculator=nach_credit"
  else if scen = "nach_mandate" then
    scalarBranch ((calc_nach_mandate_compensation raw).map (fun c => (c : ℚ)))
      (ctxAmount raw "transaction_amount") (ctxDate raw "revocation_effective_date_iso")
      "calculator=nach_mandate"
  else if scen = "unauth_zero" then
    scalarBranch (calc_unauth_zero_liability_interest raw default_sb_rate)
      (ctxAmount raw "fraud_amount") (ctxDate raw "debit_date_iso")
      "calculator=unauth_zero_interest"
  else if scen = "unauth_limited" then
    let amt := ctxAmount raw "fraud_amount"
    let comp := calc_unauth_limited_liability raw
    let d := ctxDate raw "debit_date_iso"
    match comp, amt with
    | some s, some a =>
      ({ baseResult with
          eligible := true
          amount := some s.bank_compensation
          primary_amount := some a
          customer_liability := some s.customer_liability
          bank_compensation := some s.bank_compensation
          primary_date := d.map isoformat }, ["calculator=unauth_limited_liability"])
    | _, _ => (baseResult, [])
  else if scen = "unauth_negligence" then
    let comp := calc_unauth_customer_negligence raw
    let d := ctxDate raw "debit_date_iso"
    match comp with
    | some s =>
      let total_fraud := pyOrQ (ctxAmount raw "fraud_amount_before_report") 0
        + pyOrQ (ctxAmount raw "fraud_amount_after_report") 0
      ({ baseResult with
          eligible := true
          amount := some s.bank_compensation
          primary_amount := some total_fraud
          customer_liability := some s.customer_liability
          bank_compensation := some s.bank_compensation
          primary_date := d.map isoformat }, ["calculator=unauth_customer_negligence"])
    | none => (baseResult, [])
  else (baseResult, [])

/-- Join explanation parts the way the dispatcher does. -/
def joinSemi (parts : List String) : String := String.intercalate "; " parts

/-- Boundary of `dispatch_compensation`: the `try`/`except` guardrail and
final assembly.  A raised calculator exception is the `Except.error` case:
it is recorded as a `calculator_error=` trace entry and the result record
stays at its non-eligible base value. -/
def dispatchCatch (parts0 : List String) (body : Except String (DispatchResult × List String)) :
    DispatchResult :=
  let rp : DispatchResult × List String :=
    match body with
    | Except.ok rp => rp
    | Except.error exc => (baseResult, ["calculator_error=" ++ exc])
  let parts1 := parts0 ++ rp.2
  let parts2 := if rp.1.eligible then parts1
    else parts1 ++ ["eligible=False (missing or invalid fields)"]
  { rp.1 with explanation := joinSemi parts2 }

/-- `dispatch_compensation` from `compensation_formulas.py`.  In this
embedding every calculator is a total function, so the body always reaches
the boundary as `Except.ok`; `dispatchCatch` carries the `except` branch. -/
def dispatch_compensation (raw : Ctx) (default_repo_rate : ℚ) (default_sb_rate : ℚ) :
    DispatchResult :=
  let scen := scenarioType raw
  dispatchCatch ["scenario_type=" ++ (if scen = "" then "none" else scen)]
    (Except.ok (dispatchBody raw default_repo_rate default_sb_rate))

/-- Rule descriptor from `compensation_rules.py`: the `type` tag and its
type-specific parameters. -/
inductive CompRule
  | delay (allowed_days : ℕ) (per_day : ℚ)
  | weekly_delay (per_week : ℚ) (cap : ℚ)
  | interest (rate : ℚ)
  | interest_with_limits (rate : ℚ) (lo : ℚ) (hi : ℚ)
  | refund
  | limited_refund (limit : ℚ)
  | locker_loss (multiplier : ℚ)
  | no_comp
deriving DecidableEq

/-- `COMP_RULES` table: integer scenario id to rule descriptor. -/
def COMP_RULES : ℕ → Option CompRule
  | 1 => some (CompRule.delay 1 100)
  | 2 => some (CompRule.delay 5 100)
  | 3 => some (CompRule.delay 1 100)
  | 4 => some (CompRule.delay 5 100)
  | 5 => some (CompRule.interest (8/100))
  | 6 => some (CompRule.interest (8/100))
  | 7 => some (CompRule.delay 1 100)
  | 8 => some (CompRule.delay 1 100)
  | 9 => some (CompRule.interest (4/100))
  | 10 => some CompRule.refund
  | 11 => some CompRule.refund
  | 12 => some CompRule.refund
  | 13 => some CompRule.refund
  | 14 => some (CompRule.limited_refund 10000)
  | 15 => some CompRule.no_comp
  | 16 => some (CompRule.weekly_delay 100 5000)
  | 17 => some CompRule.refund
  | 18 => some (CompRule.delay 7 500)
  | 19 => some (CompRule.delay 30 100)
  | 20 => some (CompRule.delay 5 100)
  | 21 => some (CompRule.delay 1 100)
  | 22 => some (CompRule.interest_with_limits (3/100) 100 1000)
  | 23 => some (CompRule.interest (6/100))
  | 24 => some (CompRule.interest (6/100))
  | 25 => some (CompRule.interest (5/100))
  | 26 => some (CompRule.locker_loss 100)
  | 27 => some CompRule.refund
  | _ => none

/-- `parse_date` from `compensation_calculator.py`: `strptime`, raising
(`Except.error`) on a malformed date string. -/
def parse_date (s : String) : Except String PDate :=
  match strptimeYMD s.data with
  | some d => Except.ok d
  | none => Except.error "ValueError"

/-- `days_between`: day difference clamped at zero. -/
def days_between (d1 d2 : PDate) : ℕ := (toOrdinal d2 - toOrdinal d1).toNat

/-- `calculate_compensation` from `compensation_calculator.py`: rule-table
lookup (absent id is worth zero before any date is parsed), then the
type-tag branch; date parsing is not guarded, so a malformed date string
is a caller-visible failure (`Except.error`). -/
def calculate_compensation (scenario_id : ℕ) (txn_date today_date : String) (amount : ℚ) :
    Except String ℚ :=
  match COMP_RULES scenario_id with
  | none => Except.ok 0
  | some rule =>
    match parse_date txn_date with
    | Except.error e => Except.error e
    | Except.ok txn =>
    match parse_date today_date with
    | Except.error e => Except.error e
    | Except.ok today =>
    let delay := days_between txn today
    match rule with
    | CompRule.delay allowed_days per_day =>
      pure (((delay - allowed_days : ℕ) : ℚ) * per_day)
    | CompRule.weekly_delay per_week cap =>
      pure (min (((delay / 7 : ℕ) : ℚ) * per_week) cap)
    | CompRule.interest rate =>
      pure ((roundHalfEven (amount * rate * (delay : ℚ) / 365) : ℚ))
    | CompRule.interest_with_limits rate lo hi =>
      pure (min (max lo (amount * rate * (delay : ℚ) / 365)) hi)
    | CompRule.refund => pure amount
    | CompRule.limited_refund limit => pure (min amount limit)
    | CompRule.locker_loss multiplier => pure (amount * multiplier)
    | CompRule.no_comp => pure 0

theorem roundHalfEven_den_one (q : ℚ) (h : q.den = 1) : (roundHalfEven q : ℚ) = q := by
  obtain ⟨n, rfl⟩ : ∃ n : ℤ, q = (n : ℚ) := ⟨q.num, ((Rat.den_eq_one_iff q).mp h).symm⟩
  unfold roundHalfEven
  simp

theorem pyRound2_den (q : ℚ) (h : (q * 100).den = 1) : pyRound2 q = q := by
  unfold pyRound2
  rw [roundHalfEven_den_one _ h]
  field_simp

/-- C9: `calc_rtgs_compensation` and `calc_neft_compensation` are
extensionally equal: for every context, default repo rate and spread they
return identical results, because the RTGS flooring `max 1 days_raw` is
applied only after the guard that already returned 0 for
`days_raw ≤ 0`, making it a no-op. -/
theorem claim_C9_rtgs_neft_equal (raw : Ctx) (default_repo_rate spread : ℚ) :
    calc_rtgs_compensation raw default_repo_rate spread
      = calc_neft_compensation raw default_repo_rate spread := by
  unfold calc_rtgs_compensation calc_neft_compensation
  cases ctxAmount raw "transaction_amount" <;>
    cases ctxDate raw "due_date_iso" <;>
      cases ctxDate raw "credit_date_iso" <;> simp
  rename_i a dd cd
  split_ifs with h
  · rfl
  · have h1 : (1 : ℚ) ≤ ((toOrdinal cd : ℚ) - (toOrdinal dd : ℚ)) := by
      have h2 : (1 : ℤ) ≤ toOrdinal cd - toOrdinal dd := by omega
      exact_mod_cast h2
    rw [max_eq_right h1]

/-- C5: for every scenario id whose legacy rule has type
`interest_with_limits`, every pair of valid dates and every non-negative
amount, `calculate_compensation` returns a value within `[min, max]`
inclusive; the min is a floor even when the raw interest is below it. -/
theorem claim_C5_interest_with_limits_bounds
    (scenario_id : ℕ) (rate lo hi : ℚ)
    (h : COMP_RULES scenario_id = some (CompRule.interest_with_limits rate lo hi))
    (txn today : String) (d1 d2 : PDate) (amount : ℚ)
    (hp1 : parse_date txn = Except.ok d1) (hp2 : parse_date today = Except.ok d2)
    (hamt : 0 ≤ amount) :
    ∃ c, calculate_compensation scenario_id txn today amount = Except.ok c ∧
      lo ≤ c ∧ c ≤ hi := by
  have hlh : lo ≤ hi := by
    unfold COMP_RULES at h
    split at h <;>
      first
        | (injection h with h2; injection h2 with hr hl hh; subst hl; subst hh; norm_num)
        | (injection h with h2; exact CompRule.noConfusion h2)
        | injection h
  refine ⟨min (max lo (amount * rate * ((days_between d1 d2 : ℕ) : ℚ) / 365)) hi, ?_, ?_, ?_⟩
  · unfold calculate_compensation
    rw [h, hp1, hp2]
    rfl
  · exact le_min (le_max_left _ _) hlh
  · exact min_le_right _ _

theorem claim_C5_witness :
    ∃ c, calculate_compensation 22 "2026-01-01" "2026-01-11" 1000 = Except.ok c ∧
      (100 : ℚ) ≤ c ∧ c ≤ 1000 :=
  claim_C5_interest_with_limits_bounds 22 (3/100) 100 1000 rfl
    "2026-01-01" "2026-01-11" ⟨2026, 1, 1⟩ ⟨2026, 1, 11⟩ 1000
    rfl rfl (by norm_num)

/-- C8: `calculate_compensation` returns 0 for every scenario id absent
from the rule table, for arbitrary (even malformed) date strings; for a
present id it does not guard date parsing, so a malformed transaction or
reference date string surfaces as a caller-visible failure. -/
theorem claim_C8_unknown_id_zero_and_date_failure :
    (∀ (scenario_id : ℕ), COMP_RULES scenario_id = none →
      ∀ (txn today : String) (amount : ℚ),
        calculate_compensation scenario_id txn today amount = Except.ok 0) ∧
    (∀ (scenario_id : ℕ) (rule : CompRule), COMP_RULES scenario_id = some rule →
      ∀ (txn today : String) (amount : ℚ),
        (strptimeYMD txn.data = none →
          calculate_compensation scenario_id txn today amount = Except.error "ValueError") ∧
        (∀ d1, strptimeYMD txn.data = some d1 → strptimeYMD today.data = none →
          calculate_compensation scenario_id txn today amount = Except.error "ValueError")) := by
  constructor
  · intro sid h txn today amount
    unfold calculate_compensation
    rw [h]
  · intro sid rule h txn today amount
    constructor
    · intro hbad
      unfold calculate_compensation
      rw [h]
      simp only [parse_date, hbad]
    · intro d1 hok hbad
      unfold calculate_compensation
      rw [h]
      simp only [parse_date, hok, hbad]

theorem claim_C8_witness :
    calculate_compensation 99 "garbage" "also-garbage" 5 = Except.ok 0 ∧
    calculate_compensation 5 "2026-13-01" "2026-01-01" 5 = Except.error "ValueError" :=
  ⟨claim_C8_unknown_id_zero_and_date_failure.1 99 rfl "garbage" "also-garbage" 5,
   (claim_C8_unknown_id_zero_and_date_failure.2 5 (CompRule.interest (8/100)) rfl
     "2026-13-01" "2026-01-01" 5).1 (by decide)⟩

/-- C6: each of the four flat-rate delay calculators returns
`max 0 (total_delay - tat_days) * 100` for its scenario's date pair — 0
when the delay equals the TAT and ₹100 more per further day — and is
absent exactly when either required date is missing or unparseable. -/
theorem claim_C6_flat_rate_delay_calculators (raw : Ctx) :
    (calc_upi_compensation raw = none ↔
      ctxDate raw "transaction_date_iso" = none ∨ ctxDate raw "resolved_date_iso" = none) ∧
    (∀ t r, ctxDate raw "transaction_date_iso" = some t →
      ctxDate raw "resolved_date_iso" = some r →
      calc_upi_compensation raw
        = some (max 0 (toOrdinal r - toOrdinal t - pyOrZ (ctxInt raw "tat_days") 1) * 100)) ∧
    (calc_atm_compensation raw = none ↔
      ctxDate raw "transaction_date_iso" = none ∨ ctxDate raw "resolved_date_iso" = none) ∧
    (∀ t r, ctxDate raw "transaction_date_iso" = some t →
      ctxDate raw "resolved_date_iso" = some r →
      calc_atm_compensation raw
        = some (max 0 (toOrdinal r - toOrdinal t - pyOrZ (ctxInt raw "tat_days") 5) * 100)) ∧
    (calc_nach_credit_compensation raw = none ↔
      ctxDate raw "due_date_iso" = none ∨ ctxDate raw "credit_date_iso" = none) ∧
    (∀ t r, ctxDate raw "due_date_iso" = some t →
      ctxDate raw "credit_date_iso" = some r →
      calc_nach_credit_compensation raw
        = some (max 0 (toOrdinal r - toOrdinal t - pyOrZ (ctxInt raw "tat_days") 1) * 100)) ∧
    (calc_nach_mandate_compensation raw = none ↔
      ctxDate raw "revocation_effective_date_iso" = none ∨
        ctxDate raw "resolution_date_iso" = none) ∧
    (∀ t r, ctxDate raw "revocation_effective_date_iso" = some t →
      ctxDate raw "resolution_date_iso" = some r →
      calc_nach_mandate_compensation raw
        = some (max 0 (toOrdinal r - toOrdinal t - pyOrZ (ctxInt raw "tat_days") 1) * 100)) := by
  unfold calc_upi_compensation calc_atm_compensation
    calc_nach_credit_compensation calc_nach_mandate_compensation
  refine ⟨?_, ?_, ?_, ?_, ?_, ?_, ?_, ?_⟩
  · cases ctxDate raw "transaction_date_iso" <;>
      cases ctxDate raw "resolved_date_iso" <;> simp
  · intro t r ht hr
    rw [ht, hr]
  · cases ctxDate raw "transaction_date_iso" <;>
      cases ctxDate raw "resolved_date_iso" <;> simp
  · intro t r ht hr
    rw [ht, hr]
  · cases ctxDate raw "due_date_iso" <;>
      cases ctxDate raw "credit_date_iso" <;> simp
  · intro t r ht hr
    rw [ht, hr]
  · cases ctxDate raw "revocation_effective_date_iso" <;>
      cases ctxDate raw "resolution_date_iso" <;> simp
  · intro t r ht hr
    rw [ht, hr]

/-- End-to-end UPI example from the specification. -/
def upiExampleCtx : Ctx := fun k =>
  if k = "scenario_type" then some "upi"
  else if k = "transaction_amount" then some "2500"
  else if k = "transaction_date_iso" then some "2026-01-12"
  else if k = "resolved_date_iso" then some "2026-01-20"
  else if k = "tat_days" then some "1"
  else none

theorem claim_C6_witness :
    ctxDate upiExampleCtx "transaction_date_iso" = some ⟨2026, 1, 12⟩ ∧
    ctxDate upiExampleCtx "resolved_date_iso" = some ⟨2026, 1, 20⟩ ∧
    calc_upi_compensation upiExampleCtx = some 700 := by
  refine ⟨rfl, rfl, ?_⟩
  have h := (claim_C6_flat_rate_delay_calculators upiExampleCtx).2.1
    ⟨2026, 1, 12⟩ ⟨2026, 1, 20⟩ rfl rfl
  rw [h]
  decide

/-- Context with one field removed, for comparing an explicit value
against true absence. -/
def eraseKey (raw : Ctx) (key : String) : Ctx := fun k => if k = key then none else raw k

/-- C10: an explicit zero in an optional numeric override behaves like
absence, because Python's `x or default` treats 0 as falsy: a zero
`tat_days` falls back to the calculator's default TAT, a zero `repo_rate`
to the injected default repo rate, and a zero `interest_rate` to the
injected default savings rate. -/
theorem claim_C10_zero_overrides_are_absent (raw : Ctx) :
    (ctxInt raw "tat_days" = some 0 →
      calc_upi_compensation raw = calc_upi_compensation (eraseKey raw "tat_days")) ∧
    (∀ default_repo_rate spread : ℚ, ctxFloat raw "repo_rate" = some 0 →
      calc_neft_compensation raw default_repo_rate spread
        = calc_neft_compensation (eraseKey raw "repo_rate") default_repo_rate spread) ∧
    (∀ default_interest_rate : ℚ, ctxFloat raw "interest_rate" = some 0 →
      calc_unauth_zero_liability_interest raw default_interest_rate
        = calc_unauth_zero_liability_interest (eraseKey raw "interest_rate")
            default_interest_rate) := by
  refine ⟨?_, ?_, ?_⟩
  · intro h
    have e1 : ctxDate (eraseKey raw "tat_days") "transaction_date_iso"
        = ctxDate raw "transaction_date_iso" := rfl
    have e2 : ctxDate (eraseKey raw "tat_days") "resolved_date_iso"
        = ctxDate raw "resolved_date_iso" := rfl
    have e3 : pyOrZ (ctxInt (eraseKey raw "tat_days") "tat_days") 1 = 1 := rfl
    have e4 : pyOrZ (ctxInt raw "tat_days") 1 = 1 := by rw [h]; rfl
    unfold calc_upi_compensation
    rw [e1, e2, e3, e4]
  · intro drr spread h
    have e1 : ctxAmount (eraseKey raw "repo_rate") "transaction_amount"
        = ctxAmount raw "transaction_amount" := rfl
    have e2 : ctxDate (eraseKey raw "repo_rate") "due_date_iso"
        = ctxDate raw "due_date_iso" := rfl
    have e3 : ctxDate (eraseKey raw "repo_rate") "credit_date_iso"
        = ctxDate raw "credit_date_iso" := rfl
    have e4 : pyOrQ (ctxFloat (eraseKey raw "repo_rate") "repo_rate") drr = drr := rfl
    have e5 : pyOrQ (ctxFloat raw "repo_rate") drr = drr := by rw [h]; rfl
    unfold calc_neft_compensation
    rw [e1, e2, e3, e4, e5]
  · intro dir h
    have e1 : ctxAmount (eraseKey raw "interest_rate") "fraud_amount"
        = ctxAmount raw "fraud_amount" := rfl
    have e2 : ctxDate (eraseKey raw "interest_rate") "debit_date_iso"
        = ctxDate raw "debit_date_iso" := rfl
    have e3 : ctxDate (eraseKey raw "interest_rate") "reversal_date_iso"
        = ctxDate raw "reversal_date_iso" := rfl
    have e4 : pyOrQ (ctxFloat (eraseKey raw "interest_rate") "interest_rate") dir = dir := rfl
    have e5 : pyOrQ (ctxFloat raw "interest_rate") dir = dir := by rw [h]; rfl
    unfold calc_unauth_zero_liability_interest
    rw [e1, e2, e3, e4, e5]

/-- UPI context with an explicit zero TAT override. -/
def zeroTatCtx : Ctx := fun k =>
  if k = "transaction_date_iso" then some "2026-01-12"
  else if k = "resolved_date_iso" then some "2026-01-20"
  else if k = "tat_days" then some "0"
  else none

theorem claim_C10_witness :
    ctxInt zeroTatCtx "tat_days" = some 0 ∧
    calc_upi_compensation zeroTatCtx = calc_upi_compensation (eraseKey zeroTatCtx "tat_days") :=
  ⟨by decide, (claim_C10_zero_overrides_are_absent zeroTatCtx).1 (by decide)⟩

/-- Context with a one-cent fraud amount in a recognised segment. -/
def centCtx : Ctx := fun k =>
  if k = "fraud_amount" then some "0.01"
  else if k = "account_segment" then some "bsbd"
  else none

/-- C1 counterexample: for `fraud_amount = "0.01"` in segment `bsbd` the
two returned halves both round away from 0.005, so
`customer_liability + bank_compensation` is 0, not the parsed fraud
amount 1/100 — the exact-sum property fails for amounts whose half is not
representable in two decimals. -/
theorem claim_C1_counterexample :
    ctxAmount centCtx "fraud_amount" = some (1/100) ∧
    calc_unauth_limited_liability centCtx = some ⟨0, 0⟩ ∧
    (0 : ℚ) + 0 ≠ 1/100 := by
  refine ⟨by with_unfolding_all rfl, by with_unfolding_all rfl, by norm_num⟩

/-- C1 amended: when the fraud amount parses and the normalised segment is
recognised with cap `cap`, the split sums exactly to the amount and the
customer share is `min (amount/2, cap)` provided the amount is a multiple
of 0.02 (so its half is exact in two decimals), or the amount is at least
`2*cap` and is itself exact in two decimals; without that proviso the
two-decimal rounding of the halves can break the exact sum. -/
theorem claim_C1_amended_split_sums_exactly (raw : Ctx) (a cap : ℚ)
    (hamt : ctxAmount raw "fraud_amount" = some a)
    (hseg : ACCOUNT_CAPS
      (String.mk (pyLower (pyStrip (pyOrStr (raw "account_segment") "").data))) = some cap)
    (hrep : (∃ n : ℤ, a = n / 50) ∨ (2 * cap ≤ a ∧ ∃ n : ℤ, a = n / 100)) :
    calc_unauth_limited_liability raw
      = some ⟨min (1/2 * a) cap, a - min (1/2 * a) cap⟩ ∧
    min (1/2 * a) cap + (a - min (1/2 * a) cap) = a := by
  have hcapint : ∃ m : ℤ, cap = (m : ℚ) := by
    unfold ACCOUNT_CAPS at hseg
    split_ifs at hseg <;> injection hseg with h2
    · exact ⟨5000, by rw [← h2]; norm_num⟩
    · exact ⟨10000, by rw [← h2]; norm_num⟩
    · exact ⟨25000, by rw [← h2]; norm_num⟩
  obtain ⟨m, hm⟩ := hcapint
  have hcl : pyRound2 (min (1/2 * a) cap) = min (1/2 * a) cap := by
    rcases le_total (1/2 * a) cap with hmin | hmin
    · rw [min_eq_left hmin]
      rcases hrep with ⟨n, hn⟩ | ⟨hge, n, hn⟩
      · apply pyRound2_den
        rw [show 1/2 * a * 100 = ((n : ℚ)) from by rw [hn]; ring, Rat.den_intCast]
      · have hle : cap ≤ 1/2 * a := by linarith
        have hacap : 1/2 * a = cap := le_antisymm hmin hle
        rw [hacap]
        apply pyRound2_den
        rw [show cap * 100 = ((100 * m : ℤ) : ℚ) from by rw [hm]; push_cast; ring,
          Rat.den_intCast]
    · rw [min_eq_right hmin]
      apply pyRound2_den
      rw [show cap * 100 = ((100 * m : ℤ) : ℚ) from by rw [hm]; push_cast; ring,
        Rat.den_intCast]
  have hbk : pyRound2 (a - min (1/2 * a) cap) = a - min (1/2 * a) cap := by
    rcases le_total (1/2 * a) cap with hmin | hmin
    · rw [min_eq_left hmin]
      rcases hrep with ⟨n, hn⟩ | ⟨hge, n, hn⟩
      · apply pyRound2_den
        rw [show (a - 1/2 * a) * 100 = ((n : ℚ)) from by rw [hn]; ring, Rat.den_intCast]
      · have hle : cap ≤ 1/2 * a := by linarith
        have hacap : 1/2 * a = cap := le_antisymm hmin hle
        apply pyRound2_den
        rw [show (a - 1/2 * a) * 100 = 1/2 * a * 100 from by ring, hacap,
          show cap * 100 = ((100 * m : ℤ) : ℚ) from by rw [hm]; push_cast; ring,
          Rat.den_intCast]
    · rw [min_eq_right hmin]
      rcases hrep with ⟨n, hn⟩ | ⟨hge, n, hn⟩
      · apply pyRound2_den
        rw [show (a - cap) * 100 = ((2 * n - 100 * m : ℤ) : ℚ) from by
          rw [hn, hm]; push_cast; ring, Rat.den_intCast]
      · apply pyRound2_den
        rw [show (a - cap) * 100 = ((n - 100 * m : ℤ) : ℚ) from by
          rw [hn, hm]; push_cast; ring, Rat.den_intCast]
  constructor
  · unfold calc_unauth_limited_liability
    dsimp only
    rw [hamt, hseg]
    dsimp only
    rw [hcl, hbk]
  · ring

/-- Limited-liability example from the specification. -/
def limCtx : Ctx := fun k =>
  if k = "fraud_amount" then some "20000"
  else if k = "account_segment" then some "sb_ppi"
  else none

theorem claim_C1_witness :
    calc_unauth_limited_liability limCtx
      = some ⟨min (1/2 * 20000) 10000, 20000 - min (1/2 * 20000) 10000⟩ ∧
    min (1/2 * (20000 : ℚ)) 10000 + (20000 - min (1/2 * 20000) 10000) = 20000 :=
  claim_C1_amended_split_sums_exactly limCtx 20000 10000
    (by with_unfolding_all rfl) (by with_unfolding_all rfl)
    (Or.inl ⟨1000000, by norm_num⟩)

/-- Context with a negative before-report fraud amount. -/
def negCtx : Ctx := fun k =>
  if k = "fraud_amount_before_report" then some "-5"
  else if k = "fraud_amount_after_report" then some "10"
  else none

/-- C4 counterexample: for `fraud_amount_before_report = "-5"` the claim
says `customer_liability` equals the parsed before amount, but the code
clamps at zero: the returned split is `⟨0, 10⟩` and `0 ≠ -5`. -/
theorem claim_C4_counterexample :
    ctxAmount negCtx "fraud_amount_before_report" = some (-5) ∧
    calc_unauth_customer_negligence negCtx = some ⟨0, 10⟩ ∧
    (0 : ℚ) ≠ -5 := by
  refine ⟨by with_unfolding_all rfl, by with_unfolding_all rfl, by norm_num⟩

/-- C4 amended: the result is absent exactly when both amounts parse (or
default) to zero; otherwise the split is the zero-clamped, two-decimal
rounded pair `⟨round2 (max 0 before), round2 (max 0 after)⟩`, which equals
`⟨before, after⟩` whenever both amounts are non-negative exact two-decimal
values. -/
theorem claim_C4_amended_negligence (raw : Ctx) (b c : ℚ)
    (hb : pyOrQ (ctxAmount raw "fraud_amount_before_report") 0 = b)
    (hc : pyOrQ (ctxAmount raw "fraud_amount_after_report") 0 = c) :
    (calc_unauth_customer_negligence raw = none ↔ b = 0 ∧ c = 0) ∧
    (¬(b = 0 ∧ c = 0) →
      calc_unauth_customer_negligence raw
        = some ⟨pyRound2 (max 0 b), pyRound2 (max 0 c)⟩) ∧
    (¬(b = 0 ∧ c = 0) → 0 ≤ b → 0 ≤ c →
      (∃ n : ℤ, b = n / 100) → (∃ n : ℤ, c = n / 100) →
      calc_unauth_customer_negligence raw = some ⟨b, c⟩) := by
  unfold calc_unauth_customer_negligence
  dsimp only
  rw [hb, hc]
  refine ⟨?_, ?_, ?_⟩
  · split_ifs with h
    · simp [h]
    · simp [h]
  · intro h
    rw [if_neg h]
  · rintro h hb0 hc0 ⟨n, hn⟩ ⟨k, hk⟩
    rw [if_neg h, max_eq_right hb0, max_eq_right hc0]
    have rb : pyRound2 b = b := by
      apply pyRound2_den
      rw [show b * 100 = ((n : ℤ) : ℚ) from by rw [hn]; ring, Rat.den_intCast]
    have rc : pyRound2 c = c := by
      apply pyRound2_den
      rw [show c * 100 = ((k : ℤ) : ℚ) from by rw [hk]; ring, Rat.den_intCast]
    rw [rb, rc]

/-- Context with well-formed non-negative fraud amounts. -/
def negWitCtx : Ctx := fun k =>
  if k = "fraud_amount_before_report" then some "100"
  else if k = "fraud_amount_after_report" then some "250"
  else none

theorem claim_C4_witness :
    calc_unauth_customer_negligence negWitCtx = some ⟨100, 250⟩ :=
  (claim_C4_amended_negligence negWitCtx 100 250
      (by with_unfolding_all rfl) (by with_unfolding_all rfl)).2.2
    (by norm_num) (by norm_num) (by norm_num)
    ⟨10000, by norm_num⟩ ⟨25000, by norm_num⟩

/-- C7: for an absent or unrecognised `scenario_type` the dispatcher
returns the untouched base envelope — `eligible = false`, every amount
field absent — whatever the other fields hold, and the explanation records
the scenario string that was seen (`none` for an empty one). -/
theorem claim_C7_unrecognised_scenario (raw : Ctx) (r1 r2 : ℚ)
    (h : scenarioType raw ∉ recognisedScenarios) :
    dispatch_compensation raw r1 r2 =
      { eligible := false, amount := none, primary_amount := none, primary_date := none,
        customer_liability := none, bank_compensation := none,
        explanation := joinSemi
          ["scenario_type="
              ++ (if scenarioType raw = "" then "none" else scenarioType raw),
            "eligible=False (missing or invalid fields)"] } := by
  simp only [recognisedScenarios, List.mem_cons, List.not_mem_nil, or_false] at h
  push_neg at h
  obtain ⟨h1, h2, h3, h4, h5, h6, h7, h8, h9, h10⟩ := h
  have hb : dispatchBody raw r1 r2 = (baseResult, []) := by
    unfold dispatchBody
    dsimp only
    rw [if_neg h1, if_neg h2, if_neg h3, if_neg h4, if_neg h5, if_neg h6, if_neg h7,
      if_neg h8, if_neg h9, if_neg h10]
  unfold dispatch_compensation
  dsimp only
  rw [hb]
  rfl

/-- Context whose scenario type normalises to an unrecognised name. -/
def walrusCtx : Ctx := fun k =>
  if k = "scenario_type" then some " Walrus "
  else if k = "transaction_amount" then some "2500"
  else none

theorem claim_C7_witness :
    dispatch_compensation walrusCtx 0 0 =
      { eligible := false, amount := none, primary_amount := none, primary_date := none,
        customer_liability := none, bank_compensation := none,
        explanation := "scenario_type=walrus; eligible=False (missing or invalid fields)" } :=
  (claim_C7_unrecognised_scenario walrusCtx 0 0 (by decide)).trans (by with_unfolding_all rfl)

/-- C3: the `try`/`except` boundary never lets a calculator failure
escape: for any explanation prefix and any exception value, the catch
produces an ordinary envelope with `eligible = false` whose trace records
the error, and the real dispatcher routes every call through this
boundary. -/
theorem claim_C3_exceptions_are_caught :
    (∀ (parts0 : List String) (exc : String),
      (dispatchCatch parts0 (Except.error exc)).eligible = false ∧
      (dispatchCatch parts0 (Except.error exc)).amount = none ∧
      (dispatchCatch parts0 (Except.error exc)).explanation
        = joinSemi (parts0 ++ ["calculator_error=" ++ exc,
            "eligible=False (missing or invalid fields)"])) ∧
    (∀ (raw : Ctx) (r1 r2 : ℚ), dispatch_compensation raw r1 r2
      = dispatchCatch
          ["scenario_type="
              ++ (if scenarioType raw = "" then "none" else scenarioType raw)]
          (Except.ok (dispatchBody raw r1 r2))) := by
  constructor
  · intro parts0 exc
    refine ⟨rfl, rfl, ?_⟩
    simp [dispatchCatch, baseResult, List.append_assoc]
  · intro raw r1 r2
    rfl

theorem scalarBranch_fields (comp amt : Option ℚ) (d : Option PDate) (tag : String)
    (h : (scalarBranch comp amt d tag).1.eligible = true) :
    (scalarBranch comp amt d tag).1.amount.isSome = true ∧
    (scalarBranch comp amt d tag).1.primary_amount.isSome = true := by
  revert h
  unfold scalarBranch
  cases comp <;> cases amt <;> intro h <;> simp_all [baseResult]

/-- C2: whenever the dispatcher marks a request eligible, both the
payable amount and the echoed primary amount are present in the envelope,
and the scenario was one of the ten recognised ones — eligibility is only
set by a matched calculator producing a non-absent result. -/
theorem claim_C2_eligible_implies_amounts_present (raw : Ctx) (r1 r2 : ℚ)
    (h : (dispatch_compensation raw r1 r2).eligible = true) :
    (dispatch_compensation raw r1 r2).amount.isSome = true ∧
    (dispatch_compensation raw r1 r2).primary_amount.isSome = true ∧
    scenarioType raw ∈ recognisedScenarios := by
  have he : (dispatch_compensation raw r1 r2).eligible
      = (dispatchBody raw r1 r2).1.eligible := rfl
  have ha : (dispatch_compensation raw r1 r2).amount
      = (dispatchBody raw r1 r2).1.amount := rfl
  have hp : (dispatch_compensation raw r1 r2).primary_amount
      = (dispatchBody raw r1 r2).1.primary_amount := rfl
  rw [he] at h
  rw [ha, hp]
  revert h
  unfold dispatchBody
  dsimp only
  by_cases h1 : scenarioType raw = "upi"
  · rw [if_pos h1]
    intro h
    exact ⟨(scalarBranch_fields _ _ _ _ h).1, (scalarBranch_fields _ _ _ _ h).2,
      by simp [recognisedScenarios, h1]⟩
  · rw [if_neg h1]
    by_cases h2 : scenarioType raw = "atm"
    · rw [if_pos h2]
      intro h
      exact ⟨(scalarBranch_fields _ _ _ _ h).1, (scalarBranch_fields _ _ _ _ h).2,
        by simp [recognisedScenarios, h2]⟩
    · rw [if_neg h2]
      by_cases h3 : scenarioType raw = "neft"
      · rw [if_pos h3]
        intro h
        exact ⟨(scalarBranch_fields _ _ _ _ h).1, (scalarBranch_fields _ _ _ _ h).2,
          by simp [recognisedScenarios, h3]⟩
      · rw [if_neg h3]
        by_cases h4 : scenarioType raw = "rtgs"
        · rw [if_pos h4]
          intro h
          exact ⟨(scalarBranch_fields _ _ _ _ h).1, (scalarBranch_fields _ _ _ _ h).2,
            by simp [recognisedScenarios, h4]⟩
        · rw [if_neg h4]
          by_cases h5 : scenarioType raw = "cheque"
          · rw [if_pos h5]
            intro h
            exact ⟨(scalarBranch_fields _ _ _ _ h).1, (scalarBranch_fields _ _ _ _ h).2,
              by simp [recognisedScenarios, h5]⟩
          · rw [if_neg h5]
            by_cases h6 : scenarioType raw = "nach_credit"
            · rw [if_pos h6]
              intro h
              exact ⟨(scalarBranch_fields _ _ _ _ h).1, (scalarBranch_fields _ _ _ _ h).2,
                by simp [recognisedScenarios, h6]⟩
            · rw [if_neg h6]
              by_cases h7 : scenarioType raw = "nach_mandate"
              · rw [if_pos h7]
                intro h
                exact ⟨(scalarBranch_fields _ _ _ _ h).1, (scalarBranch_fields _ _ _ _ h).2,
                  by simp [recognisedScenarios, h7]⟩
              · rw [if_neg h7]
                by_cases h8 : scenarioType raw = "unauth_zero"
                · rw [if_pos h8]
                  intro h
                  exact ⟨(scalarBranch_fields _ _ _ _ h).1, (scalarBranch_fields _ _ _ _ h).2,
                    by simp [recognisedScenarios, h8]⟩
                · rw [if_neg h8]
                  by_cases h9 : scenarioType raw = "unauth_limited"
                  · rw [if_pos h9]
                    cases calc_unauth_limited_liability raw <;>
                      cases ctxAmount raw "fraud_amount" <;>
                        intro h <;> simp_all [baseResult, recognisedScenarios, h9]
                  · rw [if_neg h9]
                    by_cases h10 : scenarioType raw = "unauth_negligence"
                    · rw [if_pos h10]
                      cases calc_unauth_customer_negligence raw <;>
                        intro h <;> simp_all [baseResult, recognisedScenarios, h10]
                    · rw [if_neg h10]
                      intro h
                      simp [baseResult] at h
theorem claim_C2_witness :
    (dispatch_compensation upiExampleCtx (65/1000) (3/100)).eligible = true ∧
    (dispatch_compensation upiExampleCtx (65/1000) (3/100)).amount.isSome = true ∧
    (dispatch_compensation upiExampleCtx (65/1000) (3/100)).primary_amount.isSome = true ∧
    scenarioType upiExampleCtx ∈ recognisedScenarios :=
  ⟨by with_unfolding_all rfl,
   claim_C2_eligible_implies_amounts_present upiExampleCtx (65/1000) (3/100)
     (by with_unfolding_all rfl)⟩
